import Mathlib

/-!
Shallow embedding of the provisioning and validation core of the
proxmox-vm-deployer-ui backend (src/backend/app), together with theorems
checking the natural-language specification against it.

Conventions of the embedding:
* Python integers are `Int` (or `Nat` where the source value is a count or
  a clock instant), Python strings are `String`, `Optional[T]` is `Option T`.
* Python exceptions are explicit: a function that can raise returns
  `Except PErr α`; the error constructors mirror app/core/exceptions.py.
  A `try/except` block becomes a `match` on the `Except` value.
* Remote I/O (the proxmoxer client, the TCP port prober) is an oracle
  passed in as a record of functions; where a loop re-issues a call over
  time, the oracle takes the fake-clock instant as an argument.
  I/O calls are instantaneous under the fake clock; `time.sleep(s)` and
  `asyncio.sleep(s)` advance the clock by `s`.
* Service functions additionally return a trace (`List Ev`) of the calls
  they issued, in order, so that claims about which calls happen (or do
  not happen) before an error are statable.
-/

namespace App

/-- Error taxonomy mirroring app/core/exceptions.py.  Each carries the
message that Python would render with `str(e)`. -/
inductive PErr where
  | connection (msg : String)
  | creation (msg : String)
  | clone (msg : String)
  | notFound (msg : String)
  | resourceNotFound (msg : String)
  | templateNotFound (msg : String)
  | invalidVMID (msg : String)
  | validationFailed (msg : String)
  | unexpected (msg : String)
deriving DecidableEq, Repr

/-- Python `str(e)`: the message carried by the exception. -/
def pyStr : PErr → String
  | .connection m | .creation m | .clone m | .notFound m
  | .resourceNotFound m | .templateNotFound m | .invalidVMID m
  | .validationFailed m | .unexpected m => m

/-- Trace events: one per call a service issues to the control-plane
client, the port prober, or the audit sink. -/
inductive Ev where
  | getNextVmid
  | createVm (node : String) (vmid : Int)
  | cloneVm (node : String) (src : Int) (newId : Int)
  | waitForTask (node : String) (task : String) (timeout : Nat)
  | startVm (node : String) (vmid : Int)
  | deleteVm (node : String) (vmid : Int)
  | updateVmConfig (node : String) (vmid : Int)
  | applyCloudinit (node : String) (vmid : Int)
  | findVmNode (vmid : Int)
  | getVmConfig (node : String) (vmid : Int)
  | getVmStatus (node : String) (vmid : Int)
  | statusCheck
  | ipPoll (t : Nat)
  | portCheck (ip : String) (port : Nat)
  | auditCreate
  | auditClone
  | auditBatch
deriving DecidableEq, Repr

/-- Events that are calls to the control-plane client (everything except
the audit sink). -/
def cpCall : Ev → Bool
  | .auditCreate | .auditClone | .auditBatch => false
  | _ => true

/-- Python `a or b` on an optional string (`None` and `""` are falsy). -/
def pyOr (a : Option String) (b : String) : String :=
  match a with
  | none => b
  | some s => if s = "" then b else s

/-- Python truthiness of an `Optional[int]` (`None` and `0` are falsy). -/
def pyTruthyInt (a : Option Int) : Bool :=
  match a with
  | none => false
  | some n => n != 0

/-- Python truthiness of an `Optional[list]` (`None` and `[]` are falsy). -/
def pyTruthyList (a : Option (List String)) : Bool :=
  match a with
  | none => false
  | some l => !l.isEmpty

/-- Python truthiness of an `Optional[str]` (`None` and `""` are falsy). -/
def pyTruthyStr (a : Option String) : Bool :=
  match a with
  | none => false
  | some s => s != ""

/-- The writer-plus-exceptions shape of an embedded service run: the
outcome and the ordered trace of issued calls. -/
def Run (α : Type) : Type := Except PErr α × List Ev

/-- Sequencing of embedded statements: an exception short-circuits, a
normal value flows on; traces concatenate in program order. -/
def andThen {α β : Type} (x : Run α) (f : α → Run β) : Run β :=
  match x with
  | (Except.error e, t) => (Except.error e, t)
  | (Except.ok a, t) =>
    match f a with
    | (r, t2) => (r, t ++ t2)

/-- A pure embedded value. -/
def ret {α : Type} (a : α) : Run α := (Except.ok a, [])

/-- Record a call event. -/
def tell (ev : Ev) : Run Unit := (Except.ok (), [ev])

/-- Raise an exception. -/
def raiseE {α : Type} (e : PErr) : Run α := (Except.error e, [])

/-- Lift a call outcome into a run, recording its event. -/
def call {α : Type} (ev : Ev) (r : Except PErr α) : Run α := (r, [ev])

/-- Settings subset used by the embedded services (app/config.py, with
its defaults for the fields that have them). -/
structure Settings where
  proxmox_user : String
  default_node : String
  default_storage : String
  default_network_bridge : String
  vmid_min : Int
  vmid_max : Int
  validation_timeout : Nat
  validation_ssh_port : Nat
  validation_rdp_port : Nat
  validation_retry_interval : Nat
  enable_auto_start : Bool
deriving DecidableEq, Repr

/-- app/schemas/vm.py VMCreateRequest. -/
structure VMCreateRequest where
  vmid : Option Int
  name : String
  node : Option String
  cores : Int
  sockets : Int
  cpu_type : String
  memory : Int
  disk_size : Int
  storage : Option String
  network_bridge : Option String
  network_model : String
  os_type : String
  bios : String
  machine : String
  iso : Option String
  virtio_iso : Option String
  start_on_creation : Bool
  enable_guest_agent : Bool
  description : Option String
  tags : Option (List String)
deriving DecidableEq, Repr

/-- app/schemas/vm.py VMCreateResponse. -/
structure VMCreateResponse where
  vmid : Int
  name : String
  node : String
  status : String
  message : String
  task_id : Option String
deriving DecidableEq, Repr

/-- app/schemas/vm.py BatchVMCreateResponse. -/
structure BatchVMCreateResponse where
  results : List VMCreateResponse
  total : Nat
  successful : Nat
  failed : Nat
deriving DecidableEq, Repr

/-- app/schemas/vm.py VMInfo. -/
structure VMInfo where
  vmid : Int
  name : String
  node : String
  status : String
  cores : Option Int
  memory : Option Int
  uptime : Option Int
deriving DecidableEq, Repr

/-- app/schemas/template.py CloneRequest.  The cloud-init payload is kept
abstract (`Option Unit`): its contents are only handed to
app/utils/cloudinit.py, which the claims do not touch; its Python
truthiness (a BaseModel instance is always truthy) is what the clone flow
branches on. -/
structure CloneRequest where
  source_vmid : Int
  new_vmid : Option Int
  name : String
  node : Option String
  storage : Option String
  full_clone : Bool
  cores : Option Int
  memory : Option Int
  start_after_clone : Bool
  description : Option String
  tags : Option (List String)
  cloudinit : Option Unit
deriving DecidableEq, Repr

/-- app/schemas/template.py CloneResponse. -/
structure CloneResponse where
  vmid : Int
  name : String
  node : String
  status : String
  message : String
  task_id : Option String
deriving DecidableEq, Repr

/-- The slice of a Proxmox VM config dict that the services read
(`config.get(...)` on 'name', 'cores', 'cpus', 'memory', 'template'). -/
structure VMConfig where
  name : Option String
  cores : Option Int
  cpus : Option Int
  memory : Option Int
  template : Option Int
deriving DecidableEq, Repr

/-- The slice of a Proxmox VM status dict the services read
(`status.get('status', ...)`, `status.get('uptime', ...)`). -/
structure StatusDict where
  status : Option String
  uptime : Option Int
deriving DecidableEq, Repr

namespace ProxmoxService

/-- A Proxmox task status dict: `status['status']` and
`status.get('exitstatus')` (proxmox_service.py wait_for_task). -/
structure TaskStatus where
  status : String
  exitstatus : Option String
deriving DecidableEq, Repr

/-- Loop body of wait_for_task (proxmox_service.py lines 278-292),
recursing on the remaining seconds before the deadline (`timeout -
elapsed`); the clock advances 2 s per iteration (`time.sleep(2)`), and
polling is instantaneous under the fake clock.  `poll t` is the outcome
of `self.get_task_status(node, upid)` at instant `t`: an exception is
`Except.error` and is treated as not-yet-terminal, exactly like the
source's bare `except`.  The second component of the result is the
fake-clock instant at which the function returns. -/
def waitFrom (poll : Nat → Except PErr TaskStatus) : Nat → Nat → Bool × Nat
  | 0, t => (false, t)
  | 1, t =>
    match poll t with
    | Except.error _ => waitFrom poll 0 (t + 2)
    | Except.ok st =>
      if st.status = "stopped" then (decide (st.exitstatus = some "OK"), t)
      else waitFrom poll 0 (t + 2)
  | r + 2, t =>
    match poll t with
    | Except.error _ => waitFrom poll r (t + 2)
    | Except.ok st =>
      if st.status = "stopped" then (decide (st.exitstatus = some "OK"), t)
      else waitFrom poll r (t + 2)

/-- proxmox_service.py wait_for_task: poll every 2 s until the task dict
reports status 'stopped' (then succeed iff exitstatus == 'OK') or the
deadline passes (then return False).  Result: (returned bool, fake-clock
instant of the return). -/
def wait_for_task (poll : Nat → Except PErr TaskStatus) (timeout : Nat) : Bool × Nat :=
  waitFrom poll timeout 0

/-- A poll outcome that the wait loop does not treat as terminal: either
an exception or a status other than 'stopped'. -/
def nonTerminal (x : Except PErr TaskStatus) : Prop :=
  ∀ st, x = Except.ok st → st.status ≠ "stopped"

/-- A VM entry as returned by the cluster listing
(`proxmox.nodes(n).qemu.get()`); `vmid` is always present in the raw API
reply, `node` is the key list_vms injects. -/
structure VMEntry where
  vmid : Int
  node : Option String
  template : Int
deriving DecidableEq, Repr

/-- The raw proxmoxer client surface used by list_nodes / list_vms:
each call can raise (network, auth, expired ticket), which the `Except`
models. -/
structure Client where
  listNodes : Except String (List String)
  qemuList : String → Except String (List VMEntry)

/-- proxmox_service.py list_nodes: wrap any client failure into
ProxmoxConnectionError. -/
def list_nodes (c : Client) : Except PErr (List String) :=
  match c.listNodes with
  | Except.ok l => Except.ok l
  | Except.error e => Except.error (PErr.connection ("Failed to list nodes: " ++ e))

/-- Inner loop of list_vms with node=None: list every node's VMs and tag
each entry with its node name. -/
def listVmsGo (c : Client) : List String → Except String (List VMEntry)
  | [] => Except.ok []
  | n :: ns =>
    match c.qemuList n with
    | Except.error e => Except.error e
    | Except.ok vms =>
      match listVmsGo c ns with
      | Except.error e => Except.error e
      | Except.ok rest =>
        Except.ok ((vms.map (fun vm => { vm with node := some n })) ++ rest)

/-- proxmox_service.py list_vms (node=None branch, the one find_vm_node
uses): gather VMs from all nodes; any exception — including the
ProxmoxConnectionError re-raised by list_nodes — becomes
ProxmoxConnectionError('Failed to list VMs: ...'). -/
def list_vms_all (c : Client) : Except PErr (List VMEntry) :=
  match list_nodes c with
  | Except.error e =>
    Except.error (PErr.connection ("Failed to list VMs: " ++ pyStr e))
  | Except.ok nodes =>
    match listVmsGo c nodes with
    | Except.error e =>
      Except.error (PErr.connection ("Failed to list VMs: " ++ e))
    | Except.ok vms => Except.ok vms

/-- proxmox_service.py find_vm_node: scan the cluster listing for the
vmid; the catch-all `except` maps every failure to None, so the function
is total by construction. -/
def find_vm_node (c : Client) (vmid : Int) : Option String :=
  match list_vms_all c with
  | Except.error _ => none
  | Except.ok vms =>
    match vms.find? (fun vm => vm.vmid = vmid) with
    | none => none
    | some vm => vm.node

end ProxmoxService

/-- The ProxmoxService surface that VMService and TemplateService call
(`self.proxmox.<method>`), as an injected collaborator.  Methods that the
source lets raise return `Except PErr`; find_vm_node is total
(ProxmoxService.find_vm_node catches everything), wait_for_task returns
a plain bool (proxmox_service.py lines 266-292). -/
structure Ops where
  getNextVmid : Except PErr Int
  createVm : String → Int → List (String × String) → Except PErr String
  cloneVm : String → Int → Int → String → String → Int → Option String →
    Except PErr String
  waitForTask : String → String → Nat → Bool
  startVm : String → Int → Except PErr String
  deleteVm : String → Int → Except PErr String
  updateVmConfig : String → Int → List (String × String) → Except PErr Unit
  applyCloudinit : String → Int → Except PErr Unit
  findVmNode : Int → Option String
  getVmConfig : String → Int → Except PErr VMConfig
  getVmStatus : String → Int → Except PErr StatusDict

namespace VMService

/-- Outcome of validate_vm_config (vm_service.py lines 230-261). -/
structure ConfigValidation where
  valid : Bool
  issues : List String
deriving DecidableEq, Repr

/-- vm_service.py validate_vm_config: collect issues in source order;
valid iff no issue. -/
def validate_vm_config (request : VMCreateRequest) : ConfigValidation :=
  let issues :=
    (if request.cores < 1 ∨ request.cores > 256 then
      ["cores must be between 1 and 256"] else []) ++
    (if request.memory < 512 then
      ["memory must be at least 512 MB"] else []) ++
    (if request.disk_size < 8 then
      ["disk_size must be at least 8 GB"] else []) ++
    (if request.os_type ≠ "linux" ∧ request.os_type ≠ "windows" then
      ["os_type must be \x27linux\x27 or \x27windows\x27"] else [])
  { valid := issues.length = 0, issues := issues }

/-- The vm_config dict built by create_vm (vm_service.py lines 54-98),
values rendered to strings the way the Proxmox API receives them. -/
def vmConfig (request : VMCreateRequest) (storage network_bridge : String) :
    List (String × String) :=
  [("name", request.name),
   ("cores", toString request.cores),
   ("sockets", toString request.sockets),
   ("cpu", request.cpu_type),
   ("memory", toString request.memory),
   ("net0", request.network_model ++ ",bridge=" ++ network_bridge),
   ("ostype", if request.os_type = "linux" then "l26" else "win11"),
   ("bios", request.bios),
   ("machine", request.machine)] ++
  (if request.bios = "ovmf" then
    [("efidisk0", storage ++ ":1,efitype=4m,pre-enrolled-keys=1")] else []) ++
  [("scsi0", storage ++ ":" ++ toString request.disk_size),
   ("scsihw", "virtio-scsi-pci")] ++
  (if request.enable_guest_agent then [("agent", "1")] else []) ++
  (match request.iso with
   | some iso => [("ide2", iso ++ ",media=cdrom")]
   | none => []) ++
  (match request.virtio_iso with
   | some iso => [("ide0", iso ++ ",media=cdrom")]
   | none => []) ++
  [("boot", "order=ide2;scsi0")] ++
  (match request.description with
   | some d => [("description", d)]
   | none => []) ++
  (match request.tags with
   | some tags => [("tags", String.intercalate ";" tags)]
   | none => [])

/-- `vmid = request.vmid; if not vmid: vmid = self.proxmox.get_next_vmid()`
(vm_service.py lines 39-41; Python truthiness: None and 0 both trigger
the control-plane call). -/
def resolveVmid (ops : Ops) (rv : Option Int) : Run Int :=
  if pyTruthyInt rv then ret (rv.getD 0)
  else call Ev.getNextVmid ops.getNextVmid

/-- The InvalidVMIDError message of the range check (vm_service.py lines
44-48 and template_service.py lines 159-163). -/
def rangeMsg (vmid : Int) (s : Settings) : String :=
  "VM ID " ++ toString vmid ++ " is outside allowed range (" ++
    toString s.vmid_min ++ "-" ++ toString s.vmid_max ++ ")"

/-- The try-start-VM step shared wording of vm_service.py lines 110-120:
status and message after the optional start attempt. -/
def startStep (ops : Ops) (node : String) (vmid : Int) (wanted enabled : Bool) :
    Run (String × String) :=
  if wanted ∧ enabled then
    andThen (tell (Ev.startVm node vmid)) (fun _ =>
      match ops.startVm node vmid with
      | Except.ok _ =>
        ret ("started", "VM " ++ toString vmid ++ " created and started successfully")
      | Except.error e =>
        ret ("created",
          "VM " ++ toString vmid ++ " created but failed to start: " ++ pyStr e))
  else
    ret ("created", "VM " ++ toString vmid ++ " created successfully")

/-- Body of create_vm's try block (vm_service.py lines 34-138). -/
def createVmBody (ops : Ops) (s : Settings) (request : VMCreateRequest) :
    Run VMCreateResponse :=
  let node := pyOr request.node s.default_node
  andThen (resolveVmid ops request.vmid) (fun vmid =>
  if vmid < s.vmid_min ∨ vmid > s.vmid_max then
    raiseE (PErr.invalidVMID (rangeMsg vmid s))
  else
    let storage := pyOr request.storage s.default_storage
    let network_bridge := pyOr request.network_bridge s.default_network_bridge
    let vm_config := vmConfig request storage network_bridge
    andThen (call (Ev.createVm node vmid) (ops.createVm node vmid vm_config))
      (fun task_id =>
    andThen (tell (Ev.waitForTask node task_id 120)) (fun _ =>
    let creation_success := ops.waitForTask node task_id 120
    if !creation_success then
      raiseE (PErr.creation "VM creation timed out or failed")
    else
      andThen (startStep ops node vmid request.start_on_creation s.enable_auto_start)
        (fun sm =>
      ret { vmid := vmid, name := request.name, node := node,
            status := sm.1, message := sm.2, task_id := some task_id }))))

/-- vm_service.py create_vm: run the body, emit the audit record on every
exit path, re-raise InvalidVMIDError and VMCreationError as they are and
wrap anything else in VMCreationError (lines 140-155). -/
def create_vm (ops : Ops) (s : Settings) (request : VMCreateRequest) :
    Run VMCreateResponse :=
  match createVmBody ops s request with
  | (Except.ok r, t) => (Except.ok r, t ++ [Ev.auditCreate])
  | (Except.error e, t) =>
    match e with
    | PErr.invalidVMID _ | PErr.creation _ =>
      (Except.error e, t ++ [Ev.auditCreate])
    | _ =>
      (Except.error (PErr.creation ("Failed to create VM: " ++ pyStr e)),
       t ++ [Ev.auditCreate])

/-- Body of get_vm_info's try block (vm_service.py lines 167-189). -/
def getVmInfoBody (ops : Ops) (vmid : Int) : Run VMInfo :=
  andThen (tell (Ev.findVmNode vmid)) (fun _ =>
  match ops.findVmNode vmid with
  | none => raiseE (PErr.notFound ("VM " ++ toString vmid ++ " not found"))
  | some node =>
    andThen (call (Ev.getVmStatus node vmid) (ops.getVmStatus node vmid))
      (fun status =>
    andThen (call (Ev.getVmConfig node vmid) (ops.getVmConfig node vmid))
      (fun config =>
    ret { vmid := vmid,
          name := config.name.getD ("vm-" ++ toString vmid),
          node := node,
          status := status.status.getD "unknown",
          cores := match config.cores with
                   | some c => some c
                   | none => config.cpus,
          memory := config.memory,
          uptime := status.uptime })))

/-- vm_service.py get_vm_info: VMNotFoundError is re-raised, everything
else becomes ProxmoxConnectionError (lines 191-194). -/
def get_vm_info (ops : Ops) (vmid : Int) : Run VMInfo :=
  match getVmInfoBody ops vmid with
  | (Except.ok r, t) => (Except.ok r, t)
  | (Except.error e, t) =>
    match e with
    | PErr.notFound _ => (Except.error e, t)
    | _ =>
      (Except.error (PErr.connection ("Failed to get VM info: " ++ pyStr e)), t)

end VMService

namespace TemplateService

/-- template_service.py _apply_customizations (lines 268-300): build the
update params from the truthy override fields and, when non-empty, issue
one update_vm_config call; any failure is re-raised as
VMCloneError('VM cloned but customization failed: ...'). -/
def apply_customizations (ops : Ops) (node : String) (vmid : Int)
    (request : CloneRequest) : Run Unit :=
  let update_params :=
    (if pyTruthyInt request.cores then
      [("cores", toString (request.cores.getD 0))] else []) ++
    (if pyTruthyInt request.memory then
      [("memory", toString (request.memory.getD 0))] else []) ++
    (if pyTruthyList request.tags then
      [("tags", String.intercalate ";" ((request.tags.getD [])))] else [])
  if update_params.isEmpty then ret ()
  else
    match ops.updateVmConfig node vmid update_params with
    | Except.ok _ => (Except.ok (), [Ev.updateVmConfig node vmid])
    | Except.error e =>
      (Except.error (PErr.clone ("VM cloned but customization failed: " ++ pyStr e)),
       [Ev.updateVmConfig node vmid])

/-- template_service.py _apply_cloudinit (lines 302-335): hand the
payload to app/utils/cloudinit.apply_custom_cloudinit (kept as one oracle
call); any failure is re-raised as VMCloneError('VM cloned but cloud-init
configuration failed: ...'). -/
def apply_cloudinit (ops : Ops) (node : String) (vmid : Int)
    (request : CloneRequest) : Run Unit :=
  match request.cloudinit with
  | none => ret ()
  | some _ =>
    match ops.applyCloudinit node vmid with
    | Except.ok _ => (Except.ok (), [Ev.applyCloudinit node vmid])
    | Except.error e =>
      (Except.error
        (PErr.clone ("VM cloned but cloud-init configuration failed: " ++ pyStr e)),
       [Ev.applyCloudinit node vmid])

/-- The optional start attempt of the clone flow (template_service.py
lines 197-208). -/
def cloneStartStep (ops : Ops) (node : String) (vmid : Int)
    (wanted enabled : Bool) : Run (String × String) :=
  if wanted ∧ enabled then
    andThen (tell (Ev.startVm node vmid)) (fun _ =>
      match ops.startVm node vmid with
      | Except.ok _ =>
        ret ("started", "VM " ++ toString vmid ++ " cloned and started successfully")
      | Except.error e =>
        ret ("created",
          "VM " ++ toString vmid ++ " cloned successfully but failed to start: " ++
            pyStr e))
  else
    ret ("created", "VM " ++ toString vmid ++ " cloned successfully")

/-- Body of clone_from_template's try block (template_service.py lines
139-230). -/
def cloneBody (ops : Ops) (s : Settings) (request : CloneRequest) :
    Run CloneResponse :=
  andThen (tell (Ev.findVmNode request.source_vmid)) (fun _ =>
  match ops.findVmNode request.source_vmid with
  | none =>
    raiseE (PErr.templateNotFound
      ("Template " ++ toString request.source_vmid ++ " not found"))
  | some source_node =>
    andThen (call (Ev.getVmConfig source_node request.source_vmid)
      (ops.getVmConfig source_node request.source_vmid)) (fun config =>
    if (config.template.getD 0) = 0 then
      raiseE (PErr.templateNotFound
        ("VM " ++ toString request.source_vmid ++ " is not a template"))
    else
      let target_node := pyOr request.node s.default_node
      andThen (VMService.resolveVmid ops request.new_vmid) (fun new_vmid =>
      if new_vmid < s.vmid_min ∨ new_vmid > s.vmid_max then
        raiseE (PErr.invalidVMID (VMService.rangeMsg new_vmid s))
      else
        let storage := pyOr request.storage s.default_storage
        andThen (call (Ev.cloneVm source_node request.source_vmid new_vmid)
          (ops.cloneVm source_node request.source_vmid new_vmid request.name
            storage (if request.full_clone then 1 else 0) request.description))
          (fun task_id =>
        andThen (tell (Ev.waitForTask source_node task_id s.validation_timeout))
          (fun _ =>
        let clone_success := ops.waitForTask source_node task_id s.validation_timeout
        if !clone_success then
          raiseE (PErr.clone "Clone operation timed out or failed")
        else
          andThen
            (if pyTruthyInt request.cores ∨ pyTruthyInt request.memory ∨
                pyTruthyList request.tags then
              apply_customizations ops target_node new_vmid request
            else ret ()) (fun _ =>
          andThen (apply_cloudinit ops target_node new_vmid request) (fun _ =>
          andThen (cloneStartStep ops target_node new_vmid
            request.start_after_clone s.enable_auto_start) (fun sm =>
          ret { vmid := new_vmid, name := request.name, node := target_node,
                status := sm.1, message := sm.2, task_id := some task_id }))))))))

/-- template_service.py clone_from_template: run the body, emit the audit
record on every exit path, re-raise TemplateNotFoundError,
InvalidVMIDError and VMCloneError as they are and wrap anything else in
VMCloneError (lines 232-247). -/
def clone_from_template (ops : Ops) (s : Settings) (request : CloneRequest) :
    Run CloneResponse :=
  match cloneBody ops s request with
  | (Except.ok r, t) => (Except.ok r, t ++ [Ev.auditClone])
  | (Except.error e, t) =>
    match e with
    | PErr.templateNotFound _ | PErr.invalidVMID _ | PErr.clone _ =>
      (Except.error e, t ++ [Ev.auditClone])
    | _ =>
      (Except.error (PErr.clone ("Failed to clone template: " ++ pyStr e)),
       t ++ [Ev.auditClone])

end TemplateService

namespace BatchApi

/-- One iteration of the batch loop (api/v1/vms.py lines 119-164): `svc`
is the behavior of vm_service.create_vm for the i-th request (it may
depend on the position, which also covers stateful control planes).
Returns the appended result and whether the item counted as successful. -/
def processItem (svc : Nat → VMCreateRequest → Except PErr VMCreateResponse)
    (i : Nat) (request : VMCreateRequest) : VMCreateResponse × Bool :=
  let validation := VMService.validate_vm_config request
  if !validation.valid then
    ({ vmid := 0, name := request.name, node := "", status := "failed",
       message := "Invalid configuration: " ++ String.intercalate ", " validation.issues,
       task_id := none }, false)
  else
    match svc i request with
    | Except.ok result => (result, true)
    | Except.error e =>
      match e with
      | PErr.invalidVMID _ | PErr.creation _ | PErr.connection _ =>
        ({ vmid := 0, name := request.name, node := "", status := "failed",
           message := "Failed: " ++ pyStr e, task_id := none }, false)
      | _ =>
        ({ vmid := 0, name := request.name, node := "", status := "failed",
           message := "Unexpected error: " ++ pyStr e, task_id := none }, false)

/-- The batch loop, carrying (results, successful, failed). -/
def batchGo (svc : Nat → VMCreateRequest → Except PErr VMCreateResponse) :
    Nat → List VMCreateRequest → List VMCreateResponse × Nat × Nat
  | _, [] => ([], 0, 0)
  | i, r :: rs =>
    let pr := processItem svc i r
    let rest := batchGo svc (i + 1) rs
    (pr.1 :: rest.1,
     (if pr.2 then rest.2.1 + 1 else rest.2.1),
     (if pr.2 then rest.2.2 else rest.2.2 + 1))

/-- api/v1/vms.py batch_create_vms: process the requests strictly in
order, never aborting on an item failure, then return the aggregate
report (total = len(requests)); one batch audit record is emitted after
the loop. -/
def batch_create_vms (svc : Nat → VMCreateRequest → Except PErr VMCreateResponse)
    (requests : List VMCreateRequest) : BatchVMCreateResponse :=
  let (results, successful, failed) := batchGo svc 0 requests
  { results := results, total := requests.length,
    successful := successful, failed := failed }

end BatchApi

namespace ValidationService

/-- app/schemas/validation.py ValidationCheck (the wall-clock timestamp
field of ValidationResult is omitted: real time is outside the
embedding).  Details dicts are rendered as ordered key/value pairs. -/
structure ValidationCheck where
  passed : Bool
  message : Option String
  details : Option (List (String × String))
  required : Bool
deriving DecidableEq, Repr

/-- app/schemas/validation.py ValidationResult; `checks` keeps insertion
order (name, check). -/
structure ValidationResult where
  vmid : Int
  status : String
  ip_address : Option String
  checks : List (String × ValidationCheck)
  message : Option String
deriving DecidableEq, Repr

/-- A guest interface entry as read by _get_vm_ip_address:
`'ip-addresses' in iface` and per address `ip_info.get('ip-address')`,
`ip_info.get('ip-address-type', '')`. -/
structure IpInfo where
  ipAddress : Option String
  ipAddressType : Option String
deriving DecidableEq, Repr

structure Iface where
  ipAddresses : Option (List IpInfo)
deriving DecidableEq, Repr

/-- Result dict of app/utils/port_checker.check_port_open as _check_port
reads it: `result['passed']` and `result.get('message', ...)`. -/
structure PortResult where
  passed : Bool
  message : Option String
deriving DecidableEq, Repr

/-- The control-plane and prober surface the validation flow calls,
indexed by the fake-clock instant of the call.  find_vm_node and
get_vm_network_interfaces are total because their ProxmoxService
wrappers catch every exception (returning None); get_vm_status and
check_port_open can raise, which their `Except` models. -/
structure VEnv where
  findVmNode : Nat → Int → Option String
  getVmStatus : Nat → String → Int → Except PErr StatusDict
  getNetIfaces : Nat → String → Int → Option (List Iface)
  checkPort : String → Nat → Nat → Except PErr PortResult

/-- validation_service.py _check_proxmox_status (lines 92-152), executed
at instant `t`: resolve the node (None short-circuits to a failed
required check), fetch the status, pass iff it is 'running';
VMNotFoundError and any other exception are caught into failed checks. -/
def check_proxmox_status (env : VEnv) (t : Nat) (vmid : Int) : ValidationCheck :=
  match env.findVmNode t vmid with
  | none =>
    { passed := false, message := some ("VM " ++ toString vmid ++ " not found"),
      details := none, required := true }
  | some node =>
    match env.getVmStatus t node vmid with
    | Except.error (PErr.notFound _) =>
      { passed := false, message := some ("VM " ++ toString vmid ++ " not found"),
        details := none, required := true }
    | Except.error e =>
      { passed := false,
        message := some ("Failed to check Proxmox status: " ++ pyStr e),
        details := some [("error", pyStr e)], required := true }
    | Except.ok st =>
      let vm_status := st.status.getD "unknown"
      let uptime := st.uptime.getD 0
      if vm_status = "running" then
        { passed := true,
          message := some ("VM is running (uptime: " ++ toString uptime ++ "s)"),
          details := some [("status", vm_status), ("uptime", toString uptime),
                           ("node", node)],
          required := true }
      else
        { passed := false,
          message := some ("VM is not running (status: " ++ vm_status ++ ")"),
          details := some [("status", vm_status), ("node", node)],
          required := true }

/-- The scan over guest interfaces for a non-loopback IPv4 address
(validation_service.py lines 208-219). -/
def pickIp (ifaces : List Iface) : Option String :=
  ifaces.findSome? (fun ifc =>
    match ifc.ipAddresses with
    | none => none
    | some infos =>
      infos.findSome? (fun info =>
        match info.ipAddress with
        | none => none
        | some ip =>
          if ip ≠ "" ∧ (info.ipAddressType.getD "").toLower = "ipv4" ∧
              ¬ ip.startsWith "127." then
            some ip
          else none))

/-- validation_service.py _get_vm_ip_address (lines 186-222) at instant
`t`: total — its catch-all `except` returns None, and every operation it
performs is itself total in the embedding. -/
def get_vm_ip_address (env : VEnv) (t : Nat) (vmid : Int) : Option String :=
  match env.findVmNode t vmid with
  | none => none
  | some node =>
    match env.getNetIfaces t node vmid with
    | none => none
    | some interfaces =>
      if interfaces.isEmpty then none
      else pickIp interfaces

/-- validation_service.py _wait_for_ip (lines 154-184): the loop runs
while the elapsed time is below the timeout, so `remaining` (timeout
minus elapsed) being zero ends it; each attempt is instantaneous and
followed by `asyncio.sleep(10)` — on a found address as well as on the
(here unreachable) exception branch.  Also returns the ip-poll trace. -/
def wait_for_ip (env : VEnv) (vmid : Int) (remaining t : Nat) :
    Option String × List Ev :=
  if remaining = 0 then (none, [])
  else
    match get_vm_ip_address env t vmid with
    | some ip => (some ip, [Ev.ipPoll t])
    | none =>
      let next := wait_for_ip env vmid (remaining - 10) (t + 10)
      (next.1, Ev.ipPoll t :: next.2)
termination_by remaining
decreasing_by omega

/-- The ip-poll event trace of a fruitless address wait starting at
instant `t` with `remaining` seconds before the sub-timeout. -/
def ipPollEvents (remaining t : Nat) : List Ev :=
  if remaining = 0 then []
  else Ev.ipPoll t :: ipPollEvents (remaining - 10) (t + 10)
termination_by remaining
decreasing_by omega

/-- validation_service.py _check_port (lines 224-256): wrap the prober
result into a check; any exception becomes a failed check. -/
def check_port (env : VEnv) (s : Settings) (ip_address : String) (port : Nat)
    (port_name : String) : ValidationCheck :=
  match env.checkPort ip_address port s.validation_retry_interval with
  | Except.ok result =>
    { passed := result.passed,
      message := some (result.message.getD (port_name ++ " port check")),
      details := some ([("passed", if result.passed then "True" else "False")] ++
        (match result.message with
         | some m => [("message", m)]
         | none => [])),
      required := true }
  | Except.error e =>
    { passed := false,
      message := some ("Failed to check " ++ port_name ++ " port: " ++ pyStr e),
      details := some [("error", pyStr e)], required := true }

/-- The try block of validate_vm (validation_service.py lines 40-75):
liveness check at instant 0, address wait with the fixed 120 s
sub-timeout, then — only if an address was found — the port check and
the required-checks aggregation.  Every step is total in the embedding
(each source step catches its own exceptions), so the body never
reaches the outer handler. -/
def validateVmCore (env : VEnv) (s : Settings) (vmid : Int) (os_type : String) :
    ValidationResult × List Ev :=
  let c1 := check_proxmox_status env 0 vmid
  let checks1 := [("proxmox_status", c1)]
  let (ipRes, tr) := wait_for_ip env vmid 120 0
  match ipRes with
  | none =>
    ({ vmid := vmid, status := "degraded", ip_address := none,
       checks := checks1,
       message := some "VM is running but no IP address assigned" },
     Ev.statusCheck :: tr)
  | some ip_address =>
    let port := if os_type = "linux" then s.validation_ssh_port
                else s.validation_rdp_port
    let port_name := if os_type = "linux" then "SSH" else "RDP"
    let c2 := check_port env s ip_address port port_name
    let checks2 := checks1 ++ [(port_name.toLower ++ "_port", c2)]
    let required_checks := (checks2.map Prod.snd).filter (fun c => c.required)
    let all_passed := required_checks.all (fun c => c.passed)
    ({ vmid := vmid,
       status := if all_passed then "healthy" else "degraded",
       ip_address := some ip_address,
       checks := checks2,
       message := some (if all_passed then "All validation checks passed"
                        else "Some validation checks failed") },
     Ev.statusCheck :: (tr ++ [Ev.portCheck ip_address port]))

/-- The outer exception handler of validate_vm (validation_service.py
lines 77-90): when an exception `e` escapes the check sequence with
`checks` accumulated so far, report a synthetic failing 'error' check and
overall status 'unhealthy'. -/
def validationFailedResult (vmid : Int) (checks : List (String × ValidationCheck))
    (e : String) : ValidationResult :=
  { vmid := vmid, status := "unhealthy", ip_address := none,
    checks := checks ++
      [("error", { passed := false, message := some ("Validation failed: " ++ e),
                   details := some [("error", e)], required := true })],
    message := some ("Validation failed: " ++ e) }

/-- validation_service.py validate_vm (lines 20-90): compute the overall
timeout (`timeout or settings.validation_timeout`, line 37) — which the
rest of the function never reads — then run the check sequence; the
sequence is total, so the outer handler (validationFailedResult) never
fires and validate_vm always returns a ValidationResult. -/
def validate_vm (env : VEnv) (s : Settings) (vmid : Int) (os_type : String)
    (timeout : Option Nat) : ValidationResult × List Ev :=
  let _timeout := match timeout with
                  | some v => if v = 0 then s.validation_timeout else v
                  | none => s.validation_timeout
  validateVmCore env s vmid os_type

end ValidationService

/-! Concrete inputs used by witnesses and counterexamples. -/

/-- The configuration defaults of app/config.py (user-supplied fields
filled with representative values). -/
def defSettings : Settings :=
  { proxmox_user := "root@pam", default_node := "pve",
    default_storage := "local-lvm", default_network_bridge := "vmbr0",
    vmid_min := 150, vmid_max := 999, validation_timeout := 300,
    validation_ssh_port := 22, validation_rdp_port := 3389,
    validation_retry_interval := 15, enable_auto_start := true }

/-- A create request that passes configuration validation. -/
def reqOk : VMCreateRequest :=
  { vmid := some 200, name := "srv-01", node := none, cores := 2, sockets := 1,
    cpu_type := "host", memory := 2048, disk_size := 20, storage := none,
    network_bridge := none, network_model := "virtio", os_type := "linux",
    bios := "seabios", machine := "q35", iso := none, virtio_iso := none,
    start_on_creation := true, enable_guest_agent := false,
    description := none, tags := none }

/-- A create request violating every configuration bound. -/
def reqBadC8 : VMCreateRequest :=
  { reqOk with cores := 0, memory := 256, disk_size := 4, os_type := "macos" }

/-- An orchestrator behavior for the batch witness: every item fails with
a domain error. -/
def svcFailC1 : Nat → VMCreateRequest → Except PErr VMCreateResponse :=
  fun _ _ => Except.error (PErr.creation "creation timed out")

/-- A control plane on which every call fails or finds nothing. -/
def opsDown : Ops :=
  { getNextVmid := Except.error (PErr.connection "unreachable"),
    createVm := fun _ _ _ => Except.error (PErr.connection "unreachable"),
    cloneVm := fun _ _ _ _ _ _ _ => Except.error (PErr.connection "unreachable"),
    waitForTask := fun _ _ _ => false,
    startVm := fun _ _ => Except.error (PErr.connection "unreachable"),
    deleteVm := fun _ _ => Except.error (PErr.connection "unreachable"),
    updateVmConfig := fun _ _ _ => Except.error (PErr.connection "unreachable"),
    applyCloudinit := fun _ _ => Except.error (PErr.connection "unreachable"),
    findVmNode := fun _ => none,
    getVmConfig := fun _ _ => Except.error (PErr.connection "unreachable"),
    getVmStatus := fun _ _ => Except.error (PErr.connection "unreachable") }

/-- A healthy control plane for the provisioning witnesses: template 9000
resolvable on node pve, tasks complete, config updates succeed — but the
start call throws. -/
def opsStartFails : Ops :=
  { opsDown with
    getNextVmid := Except.ok 200,
    createVm := fun _ _ _ => Except.ok "UPID:pve:create",
    cloneVm := fun _ _ _ _ _ _ _ => Except.ok "UPID:pve:clone",
    waitForTask := fun _ _ _ => true,
    startVm := fun _ _ => Except.error (PErr.connection "Failed to start VM: timeout"),
    findVmNode := fun vmid => if vmid = 9000 then some "pve" else none,
    getVmConfig := fun _ vmid =>
      if vmid = 9000 then
        Except.ok { name := some "ubuntu-tpl", cores := some 2, cpus := none,
                    memory := some 2048, template := some 1 }
      else Except.error (PErr.notFound "VM not found"),
    updateVmConfig := fun _ _ _ => Except.ok () }

/-- Like opsStartFails but the configuration update call throws, for the
customization-failure witness. -/
def opsCustomizeFails : Ops :=
  { opsStartFails with
    startVm := fun _ _ => Except.ok "UPID:pve:start",
    updateVmConfig := fun _ _ _ =>
      Except.error (PErr.connection "Failed to update VM config: timeout") }

/-- A clone request with an explicit target id just below the configured
minimum (150 - 1 = 149) from an absent template. -/
def reqCloneLowId : CloneRequest :=
  { source_vmid := 9000, new_vmid := some 149, name := "srv-01", node := none,
    storage := none, full_clone := true, cores := none, memory := none,
    start_after_clone := false, description := none, tags := none,
    cloudinit := none }

/-- A clone request with an explicit in-range target id, start requested,
no customization overrides. -/
def reqCloneStart : CloneRequest :=
  { reqCloneLowId with new_vmid := some 200, start_after_clone := true }

/-- A clone request with a cores override, for the customization-failure
witness. -/
def reqCloneCustom : CloneRequest :=
  { reqCloneLowId with new_vmid := some 200, cores := some 4 }

/-- A create request with an explicit target id just below the minimum. -/
def reqCreateLowId : VMCreateRequest := { reqOk with vmid := some 149 }

namespace ProxmoxService

/-- A task that is terminal-successful from instant 1 on. -/
def pollLateSuccess : Nat → Except PErr TaskStatus :=
  fun t => Except.ok (if 1 ≤ t then { status := "stopped", exitstatus := some "OK" }
                      else { status := "running", exitstatus := none })

/-- A task that never reaches a terminal state. -/
def pollNever : Nat → Except PErr TaskStatus :=
  fun _ => Except.ok { status := "running", exitstatus := none }

/-- A task whose poll raises twice before reporting terminal success. -/
def pollFlaky : Nat → Except PErr TaskStatus :=
  fun t => if t < 4 then Except.error (PErr.connection "Failed to get task status: blip")
           else Except.ok { status := "stopped", exitstatus := some "OK" }

end ProxmoxService

namespace ValidationService

/-- A validation environment in which the VM's node never resolves. -/
def envNoNode : VEnv :=
  { findVmNode := fun _ _ => none,
    getVmStatus := fun _ _ _ => Except.error (PErr.connection "unreachable"),
    getNetIfaces := fun _ _ _ => none,
    checkPort := fun _ _ _ => Except.error (PErr.connection "unreachable") }

end ValidationService

/-- A raw client whose every call raises. -/
def clientDown : ProxmoxService.Client :=
  { listNodes := Except.error "connection refused",
    qemuList := fun _ => Except.error "connection refused" }

/-- A raw client with one healthy node whose listing does not contain
VM 101. -/
def clientWithout101 : ProxmoxService.Client :=
  { listNodes := Except.ok ["pve"],
    qemuList := fun _ =>
      Except.ok [{ vmid := 9000, node := none, template := 1 }] }

/-! Helper lemmas about the Run monad, used to unfold embedded service
bodies. -/

@[simp]
theorem andThen_err {α β : Type} (e : PErr) (t : List Ev) (f : α → Run β) :
    andThen (Except.error e, t) f = (Except.error e, t) := rfl

@[simp]
theorem andThen_ok {α β : Type} (a : α) (t : List Ev) (f : α → Run β) :
    andThen (Except.ok a, t) f = ((f a).1, t ++ (f a).2) := by
  show (match f a with | (r, t2) => (r, t ++ t2)) = ((f a).1, t ++ (f a).2)
  cases f a
  rfl

@[simp]
theorem ret_def {α : Type} (a : α) :
    (ret a : Run α) = (Except.ok a, ([] : List Ev)) := rfl

@[simp]
theorem tell_def (ev : Ev) : tell ev = (Except.ok (), [ev]) := rfl

@[simp]
theorem call_def {α : Type} (ev : Ev) (r : Except PErr α) :
    call ev r = (r, [ev]) := rfl

@[simp]
theorem raiseE_def {α : Type} (e : PErr) :
    (raiseE e : Run α) = (Except.error e, []) := rfl

/-! Claim theorems. -/

/-- C8: validate_vm_config accepts a request exactly when cores lies in
[1,256], memory is at least 512, disk_size at least 8 and os_type is
linux or windows; each violated bound contributes an issue naming the
field. -/
theorem C8_validate_vm_config_bounds (request : VMCreateRequest) :
    ((VMService.validate_vm_config request).valid = true ↔
      (1 ≤ request.cores ∧ request.cores ≤ 256 ∧ 512 ≤ request.memory ∧
       8 ≤ request.disk_size ∧
       (request.os_type = "linux" ∨ request.os_type = "windows"))) ∧
    ((request.cores < 1 ∨ request.cores > 256) →
      "cores must be between 1 and 256" ∈
        (VMService.validate_vm_config request).issues) ∧
    (request.memory < 512 →
      "memory must be at least 512 MB" ∈
        (VMService.validate_vm_config request).issues) ∧
    (request.disk_size < 8 →
      "disk_size must be at least 8 GB" ∈
        (VMService.validate_vm_config request).issues) ∧
    (¬ (request.os_type = "linux" ∨ request.os_type = "windows") →
      "os_type must be \x27linux\x27 or \x27windows\x27" ∈
        (VMService.validate_vm_config request).issues) := by
  unfold VMService.validate_vm_config
  refine ⟨?_, ?_, ?_, ?_, ?_⟩ <;> split_ifs <;> simp_all <;>
    first
    | omega
    | tauto

/-- C8 witness: a request violating every bound is rejected with all four
issues listed; a well-formed request is accepted. -/
theorem C8_validate_vm_config_bounds_witness :
    ("cores must be between 1 and 256" ∈
       (VMService.validate_vm_config reqBadC8).issues) ∧
    ("memory must be at least 512 MB" ∈
       (VMService.validate_vm_config reqBadC8).issues) ∧
    ("disk_size must be at least 8 GB" ∈
       (VMService.validate_vm_config reqBadC8).issues) ∧
    ("os_type must be \x27linux\x27 or \x27windows\x27" ∈
       (VMService.validate_vm_config reqBadC8).issues) ∧
    (VMService.validate_vm_config reqOk).valid = true := by
  have h := C8_validate_vm_config_bounds reqBadC8
  have hOk := C8_validate_vm_config_bounds reqOk
  exact ⟨h.2.1 (by decide), h.2.2.1 (by decide), h.2.2.2.1 (by decide),
    h.2.2.2.2 (by decide), hOk.1.mpr (by decide)⟩

/-- Helper for C1: the batch loop yields one result per request. -/
theorem batchGo_length (svc : Nat → VMCreateRequest → Except PErr VMCreateResponse) :
    ∀ (reqs : List VMCreateRequest) (i : Nat),
      (BatchApi.batchGo svc i reqs).1.length = reqs.length := by
  intro reqs
  induction reqs with
  | nil => intro i; rfl
  | cons r rs ih =>
    intro i
    simp [BatchApi.batchGo, ih (i + 1)]

/-- Helper for C1: the success and failure counters always sum to the
number of processed requests. -/
theorem batchGo_counts (svc : Nat → VMCreateRequest → Except PErr VMCreateResponse) :
    ∀ (reqs : List VMCreateRequest) (i : Nat),
      (BatchApi.batchGo svc i reqs).2.1 + (BatchApi.batchGo svc i reqs).2.2 =
        reqs.length := by
  intro reqs
  induction reqs with
  | nil => intro i; rfl
  | cons r rs ih =>
    intro i
    have := ih (i + 1)
    simp only [BatchApi.batchGo, List.length_cons]
    split_ifs <;> omega

/-- Helper for C1: the j-th result is the processing of the j-th request,
in order. -/
theorem batchGo_get (svc : Nat → VMCreateRequest → Except PErr VMCreateResponse) :
    ∀ (reqs : List VMCreateRequest) (i j : Nat) (req : VMCreateRequest),
      reqs[j]? = some req →
      (BatchApi.batchGo svc i reqs).1[j]? =
        some (BatchApi.processItem svc (i + j) req).1 := by
  intro reqs
  induction reqs with
  | nil => intro i j req h; simp at h
  | cons r rs ih =>
    intro i j req h
    match j with
    | 0 =>
      simp at h
      subst h
      simp [BatchApi.batchGo]
    | j + 1 =>
      simp at h
      have := ih (i + 1) j req h
      have harg : i + 1 + j = i + (j + 1) := by omega
      rw [harg] at this
      simpa [BatchApi.batchGo] using this

/-- C1: for every batch input, the report has exactly one result per
request (in input order), total equals the input length, successful and
failed counters sum to the total, and an item on which the orchestrator
raises any domain error is replaced in place by a synthesized result with
status failed, vmid 0 and the error message — the remaining items are
still processed. -/
theorem C1_batch_isolation
    (svc : Nat → VMCreateRequest → Except PErr VMCreateResponse)
    (requests : List VMCreateRequest) :
    (BatchApi.batch_create_vms svc requests).results.length = requests.length ∧
    (BatchApi.batch_create_vms svc requests).total = requests.length ∧
    (BatchApi.batch_create_vms svc requests).successful +
        (BatchApi.batch_create_vms svc requests).failed =
      (BatchApi.batch_create_vms svc requests).total ∧
    (∀ i request, requests[i]? = some request →
      (BatchApi.batch_create_vms svc requests).results[i]? =
        some (BatchApi.processItem svc i request).1) ∧
    (∀ i request e, svc i request = Except.error e →
      (VMService.validate_vm_config request).valid = true →
      (BatchApi.processItem svc i request).1.vmid = 0 ∧
      (BatchApi.processItem svc i request).1.status = "failed" ∧
      (BatchApi.processItem svc i request).1.name = request.name ∧
      ∃ pre, (BatchApi.processItem svc i request).1.message = pre ++ pyStr e) := by
  refine ⟨?_, rfl, ?_, ?_, ?_⟩
  · exact batchGo_length svc requests 0
  · exact batchGo_counts svc requests 0
  · intro i request h
    simpa using batchGo_get svc requests 0 i request h
  · intro i request e hsvc hvalid
    simp only [BatchApi.processItem, hvalid, Bool.not_true, if_neg (by simp : ¬ false = true)]
    rw [hsvc]
    cases e <;> exact ⟨rfl, rfl, rfl, _, rfl⟩

/-- C1 witness: a two-item batch whose orchestrator always raises a
domain error still yields two results; the first item (valid
configuration, orchestrator error) is synthesized with vmid 0, status
failed and the error message. -/
theorem C1_batch_isolation_witness :
    (BatchApi.batch_create_vms svcFailC1 [reqOk, reqBadC8]).results.length = 2 ∧
    (BatchApi.processItem svcFailC1 0 reqOk).1.vmid = 0 ∧
    (BatchApi.processItem svcFailC1 0 reqOk).1.status = "failed" ∧
    ∃ pre, (BatchApi.processItem svcFailC1 0 reqOk).1.message =
      pre ++ pyStr (PErr.creation "creation timed out") := by
  have h := C1_batch_isolation svcFailC1 [reqOk, reqBadC8]
  have hitem := h.2.2.2.2 0 reqOk (PErr.creation "creation timed out") rfl (by decide)
  exact ⟨h.1, hitem.1, hitem.2.1, hitem.2.2.2⟩

/-- Helper for C4: with no terminal poll outcome anywhere, the wait loop
runs to the deadline and exits at the first 2-second instant that is not
strictly before it. -/
theorem waitFrom_nonterminal (poll : Nat → Except PErr ProxmoxService.TaskStatus)
    (h : ∀ u, ProxmoxService.nonTerminal (poll u)) :
    ∀ r t, ProxmoxService.waitFrom poll r t = (false, t + 2 * ((r + 1) / 2)) := by
  intro r
  induction r using Nat.strong_induction_on with
  | _ r ih =>
    intro t
    match r with
    | 0 => simp [ProxmoxService.waitFrom]
    | 1 =>
      rcases hp : poll t with e | st
      · simp [ProxmoxService.waitFrom, hp, ih 0 (by omega)]
      · have hne := h t st hp
        simp [ProxmoxService.waitFrom, hp, hne, ih 0 (by omega)]
    | r + 2 =>
      rcases hp : poll t with e | st
      · simp [ProxmoxService.waitFrom, hp, ih r (by omega)]
        omega
      · have hne := h t st hp
        simp [ProxmoxService.waitFrom, hp, hne, ih r (by omega)]
        omega

/-- Helper for C4: if the polls at instants t, t+2, ..., t+2(k-1) are all
non-terminal and the poll at t+2k — still strictly before the deadline —
reports stopped/OK, the wait returns success at that instant. -/
theorem waitFrom_success (poll : Nat → Except PErr ProxmoxService.TaskStatus) :
    ∀ k r t, 2 * k < r →
      (∀ j, j < k → ProxmoxService.nonTerminal (poll (t + 2 * j))) →
      poll (t + 2 * k) =
        Except.ok { status := "stopped", exitstatus := some "OK" } →
      ProxmoxService.waitFrom poll r t = (true, t + 2 * k) := by
  intro k
  induction k with
  | zero =>
    intro r t hr _ hp
    have hp0 : poll t = Except.ok { status := "stopped", exitstatus := some "OK" } := by
      simpa using hp
    match r with
    | 0 => omega
    | 1 => simp [ProxmoxService.waitFrom, hp0]
    | r + 2 => simp [ProxmoxService.waitFrom, hp0]
  | succ k ih =>
    intro r t hr hnt hp
    match r with
    | 0 => omega
    | 1 => omega
    | r + 2 =>
      have hstep : ProxmoxService.waitFrom poll r (t + 2) = (true, t + 2 * (k + 1)) := by
        have h1 : 2 * k < r := by omega
        have h2 : ∀ j, j < k → ProxmoxService.nonTerminal (poll (t + 2 + 2 * j)) := by
          intro j hj
          have := hnt (j + 1) (by omega)
          have harg : t + 2 * (j + 1) = t + 2 + 2 * j := by ring
          rwa [harg] at this
        have h3 : poll (t + 2 + 2 * k) =
            Except.ok { status := "stopped", exitstatus := some "OK" } := by
          have harg : t + 2 * (k + 1) = t + 2 + 2 * k := by ring
          rwa [harg] at hp
        have := ih r (t + 2) h1 h2 h3
        rw [this]
        have harg : t + 2 + 2 * k = t + 2 * (k + 1) := by ring
        rw [harg]
      rcases hpt : poll t with e | st
      · simp [ProxmoxService.waitFrom, hpt, hstep]
      · have hne := hnt 0 (by omega) st (by simpa using hpt)
        simp [ProxmoxService.waitFrom, hpt, hne, hstep]

/-- C4 (amended): under a fake clock, wait_for_task polls at the 2-second
instants 0, 2, 4, ... strictly before the timeout.  It returns success at
the first poll instant whose poll reports stopped/OK; a poll that raises
(or reports a non-stopped status) is treated as not yet terminal and the
wait continues at the next 2-second instant; if no poll before the
deadline is terminal, it returns False at the first 2-second instant that
is not before the deadline — exactly the configured deadline whenever the
timeout is a multiple of the 2-second interval (as the configured 300 s
and 120 s are), and up to 1 s later otherwise.  A task that only becomes
terminal between the last pre-deadline poll instant and the deadline is
not observed (see the counterexample to the claim as stated). -/
theorem C4_wait_for_task_grid (poll : Nat → Except PErr ProxmoxService.TaskStatus)
    (timeout : Nat) :
    (∀ k, 2 * k < timeout →
      (∀ j, j < k → ProxmoxService.nonTerminal (poll (2 * j))) →
      poll (2 * k) = Except.ok { status := "stopped", exitstatus := some "OK" } →
      ProxmoxService.wait_for_task poll timeout = (true, 2 * k)) ∧
    ((∀ t, ProxmoxService.nonTerminal (poll t)) →
      ProxmoxService.wait_for_task poll timeout = (false, 2 * ((timeout + 1) / 2))) ∧
    ((∀ t, ProxmoxService.nonTerminal (poll t)) → timeout % 2 = 0 →
      ProxmoxService.wait_for_task poll timeout = (false, timeout)) := by
  refine ⟨?_, ?_, ?_⟩
  · intro k hk hnt hp
    have := waitFrom_success poll k timeout 0 hk
      (by intro j hj; simpa using hnt j hj) (by simpa using hp)
    simpa [ProxmoxService.wait_for_task] using this
  · intro h
    have := waitFrom_nonterminal poll h timeout 0
    simpa [ProxmoxService.wait_for_task] using this
  · intro h heven
    have := waitFrom_nonterminal poll h timeout 0
    rw [ProxmoxService.wait_for_task, this]
    have : 2 * ((timeout + 1) / 2) = timeout := by omega
    rw [this]
    simp

/-- C4 counterexample to the claim as stated: the task pollLateSuccess is
terminal-successful from instant 1 on — strictly before the timeout 2 —
yet wait_for_task returns False (it polls at 0, then the deadline cuts
the loop at instant 2 before the next poll); and with a never-terminal
task and the odd timeout 3, the timed-out return happens at instant 4,
later than the configured deadline. -/
theorem C4_wait_for_task_cex :
    ProxmoxService.pollLateSuccess 1 =
      Except.ok { status := "stopped", exitstatus := some "OK" } ∧
    (1 : Nat) < 2 ∧
    ProxmoxService.wait_for_task ProxmoxService.pollLateSuccess 2 = (false, 2) ∧
    ProxmoxService.wait_for_task ProxmoxService.pollNever 3 = (false, 4) ∧
    (4 : Nat) ≠ 3 :=
  ⟨rfl, by omega, rfl, rfl, by omega⟩

/-- C4 witness: a poll that raises at instants 0 and 2 and reports
stopped/OK from instant 4 yields success at instant 4 under timeout 10;
a never-terminal task under the even timeout 120 times out at exactly
instant 120. -/
theorem C4_wait_for_task_grid_witness :
    ProxmoxService.wait_for_task ProxmoxService.pollFlaky 10 = (true, 4) ∧
    ProxmoxService.wait_for_task ProxmoxService.pollNever 120 = (false, 120) := by
  constructor
  · have h := (C4_wait_for_task_grid ProxmoxService.pollFlaky 10).1 2 (by omega)
      (by
        intro j hj st hst
        have harg : ProxmoxService.pollFlaky (2 * j) =
            Except.error (PErr.connection "Failed to get task status: blip") := by
          simp only [ProxmoxService.pollFlaky]
          rw [if_pos (by omega)]
        rw [harg] at hst
        cases hst)
      (by
        simp only [ProxmoxService.pollFlaky]
        rw [if_neg (by omega)])
    simpa using h
  · exact (C4_wait_for_task_grid ProxmoxService.pollNever 120).2.2
      (by
        intro t st hst
        simp only [ProxmoxService.pollNever] at hst
        cases hst
        decide)
      (by decide)

/-- Helper for C2: with the VM's node unresolvable at every instant, no
address is ever found. -/
theorem get_ip_none (env : ValidationService.VEnv) (vmid : Int)
    (h : ∀ u, env.findVmNode u vmid = none) :
    ∀ t, ValidationService.get_vm_ip_address env t vmid = none := by
  intro t
  simp [ValidationService.get_vm_ip_address, h t]

/-- Helper for C2: an address wait in which no attempt finds an address
runs its full poll schedule and returns none. -/
theorem wait_for_ip_none (env : ValidationService.VEnv) (vmid : Int)
    (h : ∀ t, ValidationService.get_vm_ip_address env t vmid = none) :
    ∀ r t, ValidationService.wait_for_ip env vmid r t =
      (none, ValidationService.ipPollEvents r t) := by
  intro r
  induction r using Nat.strong_induction_on with
  | _ r ih =>
    intro t
    unfold ValidationService.wait_for_ip ValidationService.ipPollEvents
    by_cases h0 : r = 0
    · simp [h0]
    · simp [h0, h t, ih (r - 10) (by omega) (t + 10)]

/-- C2 (amended): when the VM's node cannot be resolved, the liveness
check records a failed required proxmox_status check, but validate_vm
does not short-circuit: the address-wait loop still runs its full
120-second schedule (polling at 0, 10, ..., 110), finds no address (the
node stays unresolvable), skips the port check, and returns overall
status degraded — not unhealthy — with the message about a missing IP
address. -/
theorem C2_unresolvable_node_degraded (env : ValidationService.VEnv)
    (s : Settings) (vmid : Int) (os_type : String) (timeout : Option Nat)
    (h : ∀ u, env.findVmNode u vmid = none) :
    ValidationService.validate_vm env s vmid os_type timeout =
      ({ vmid := vmid, status := "degraded", ip_address := none,
         checks := [("proxmox_status",
           { passed := false,
             message := some ("VM " ++ toString vmid ++ " not found"),
             details := none, required := true })],
         message := some "VM is running but no IP address assigned" },
       Ev.statusCheck :: ValidationService.ipPollEvents 120 0) ∧
    ValidationService.ipPollEvents 120 0 =
      [Ev.ipPoll 0, Ev.ipPoll 10, Ev.ipPoll 20, Ev.ipPoll 30, Ev.ipPoll 40,
       Ev.ipPoll 50, Ev.ipPoll 60, Ev.ipPoll 70, Ev.ipPoll 80, Ev.ipPoll 90,
       Ev.ipPoll 100, Ev.ipPoll 110] ∧
    (∀ ip p, Ev.portCheck ip p ∉
      (ValidationService.validate_vm env s vmid os_type timeout).2) := by
  have hip := get_ip_none env vmid h
  have hmain : ValidationService.validate_vm env s vmid os_type timeout =
      ({ vmid := vmid, status := "degraded", ip_address := none,
         checks := [("proxmox_status",
           { passed := false,
             message := some ("VM " ++ toString vmid ++ " not found"),
             details := none, required := true })],
         message := some "VM is running but no IP address assigned" },
       Ev.statusCheck :: ValidationService.ipPollEvents 120 0) := by
    unfold ValidationService.validate_vm ValidationService.validateVmCore
    rw [wait_for_ip_none env vmid hip 120 0]
    simp [ValidationService.check_proxmox_status, h 0]
  have hsched : ValidationService.ipPollEvents 120 0 =
      [Ev.ipPoll 0, Ev.ipPoll 10, Ev.ipPoll 20, Ev.ipPoll 30, Ev.ipPoll 40,
       Ev.ipPoll 50, Ev.ipPoll 60, Ev.ipPoll 70, Ev.ipPoll 80, Ev.ipPoll 90,
       Ev.ipPoll 100, Ev.ipPoll 110] := by
    simp [ValidationService.ipPollEvents]
  refine ⟨hmain, hsched, ?_⟩
  intro ip p
  have htr : (ValidationService.validate_vm env s vmid os_type timeout).2 =
      Ev.statusCheck :: ValidationService.ipPollEvents 120 0 :=
    congrArg Prod.snd hmain
  rw [htr, hsched]
  simp

/-- C2 counterexample to the claim as stated: against a control plane on
which VM 101's node never resolves, validate_vm returns overall status
degraded, not unhealthy. -/
theorem C2_unresolvable_node_cex :
    (ValidationService.validate_vm ValidationService.envNoNode defSettings 101
        "linux" none).1.status = "degraded" ∧
    ("degraded" : String) ≠ "unhealthy" ∧
    ValidationService.envNoNode.findVmNode 0 101 = none := by
  refine ⟨?_, by decide, rfl⟩
  have h := C2_unresolvable_node_degraded ValidationService.envNoNode defSettings
    101 "linux" none (fun _ => rfl)
  rw [congrArg (fun x => x.1.status) h.1]

/-- C2 witness: the amended theorem applied to the concrete never
resolving environment. -/
theorem C2_unresolvable_node_degraded_witness :
    (ValidationService.validate_vm ValidationService.envNoNode defSettings 102
        "windows" (some 5)).1.status = "degraded" ∧
    (∀ ip p, Ev.portCheck ip p ∉
      (ValidationService.validate_vm ValidationService.envNoNode defSettings 102
        "windows" (some 5)).2) ∧
    Ev.ipPoll 110 ∈
      (ValidationService.validate_vm ValidationService.envNoNode defSettings 102
        "windows" (some 5)).2 := by
  have h := C2_unresolvable_node_degraded ValidationService.envNoNode defSettings
    102 "windows" (some 5) (fun _ => rfl)
  refine ⟨?_, h.2.2, ?_⟩
  · rw [congrArg (fun x => x.1.status) h.1]
  · rw [congrArg Prod.snd h.1, h.2.1]
    simp

/-- C6: validate_vm is total for every behavior of the control-plane
client and port prober (including throwing ones): it always returns a
ValidationResult for the requested VM whose overall status is healthy,
degraded or unhealthy; and the outer exception handler — the only source
of the unhealthy status here — reports a synthetic failing 'error' check
recording the escaped error, with overall status unhealthy. -/
theorem C6_validate_vm_never_raises (env : ValidationService.VEnv) (s : Settings)
    (vmid : Int) (os_type : String) (timeout : Option Nat) :
    (ValidationService.validate_vm env s vmid os_type timeout).1.vmid = vmid ∧
    ((ValidationService.validate_vm env s vmid os_type timeout).1.status = "healthy" ∨
     (ValidationService.validate_vm env s vmid os_type timeout).1.status = "degraded" ∨
     (ValidationService.validate_vm env s vmid os_type timeout).1.status = "unhealthy") ∧
    (∀ (checks : List (String × ValidationService.ValidationCheck)) (e : String),
      (ValidationService.validationFailedResult vmid checks e).status = "unhealthy" ∧
      (ValidationService.validationFailedResult vmid checks e).checks.getLast? =
        some ("error",
          { passed := false, message := some ("Validation failed: " ++ e),
            details := some [("error", e)], required := true })) := by
  have hshape :
      (ValidationService.validate_vm env s vmid os_type timeout).1.vmid = vmid ∧
      ((ValidationService.validate_vm env s vmid os_type timeout).1.status = "healthy" ∨
       (ValidationService.validate_vm env s vmid os_type timeout).1.status = "degraded" ∨
       (ValidationService.validate_vm env s vmid os_type timeout).1.status =
         "unhealthy") := by
    unfold ValidationService.validate_vm ValidationService.validateVmCore
    rcases hw : ValidationService.wait_for_ip env vmid 120 0 with ⟨ipRes, tr⟩
    cases ipRes with
    | none => simp
    | some ip =>
      simp only []
      split_ifs <;> simp
  refine ⟨hshape.1, hshape.2, ?_⟩
  intro checks e
  constructor
  · rfl
  · simp [ValidationService.validationFailedResult]

/-- C10: find_vm_node is total and returns None both when any
control-plane call fails and when the VM is absent from the cluster
listing — the two cases are indistinguishable to its callers; in
particular get_vm_info raises VMNotFoundError('VM ... not found') and the
validation liveness check records a failed 'VM ... not found' check
whenever find_vm_node yields None, whatever the cause. -/
theorem C10_find_vm_node_total :
    (∀ (c : ProxmoxService.Client) (vmid : Int) (e : PErr),
      ProxmoxService.list_vms_all c = Except.error e →
      ProxmoxService.find_vm_node c vmid = none) ∧
    (∀ (c : ProxmoxService.Client) (vmid : Int) (vms : List ProxmoxService.VMEntry),
      ProxmoxService.list_vms_all c = Except.ok vms →
      (∀ vm ∈ vms, vm.vmid ≠ vmid) →
      ProxmoxService.find_vm_node c vmid = none) ∧
    (∀ (c1 c2 : ProxmoxService.Client) (vmid : Int) (e : PErr)
        (vms : List ProxmoxService.VMEntry),
      ProxmoxService.list_vms_all c1 = Except.error e →
      ProxmoxService.list_vms_all c2 = Except.ok vms →
      (∀ vm ∈ vms, vm.vmid ≠ vmid) →
      ProxmoxService.find_vm_node c1 vmid = ProxmoxService.find_vm_node c2 vmid) ∧
    (∀ (ops : Ops) (vmid : Int), ops.findVmNode vmid = none →
      (VMService.get_vm_info ops vmid).1 =
        Except.error (PErr.notFound ("VM " ++ toString vmid ++ " not found"))) ∧
    (∀ (env : ValidationService.VEnv) (t : Nat) (vmid : Int),
      env.findVmNode t vmid = none →
      ValidationService.check_proxmox_status env t vmid =
        { passed := false, message := some ("VM " ++ toString vmid ++ " not found"),
          details := none, required := true }) := by
  have h1 : ∀ (c : ProxmoxService.Client) (vmid : Int) (e : PErr),
      ProxmoxService.list_vms_all c = Except.error e →
      ProxmoxService.find_vm_node c vmid = none := by
    intro c vmid e h
    simp [ProxmoxService.find_vm_node, h]
  have h2 : ∀ (c : ProxmoxService.Client) (vmid : Int)
      (vms : List ProxmoxService.VMEntry),
      ProxmoxService.list_vms_all c = Except.ok vms →
      (∀ vm ∈ vms, vm.vmid ≠ vmid) →
      ProxmoxService.find_vm_node c vmid = none := by
    intro c vmid vms h habs
    have hfind : vms.find? (fun vm => vm.vmid = vmid) = none := by
      rw [List.find?_eq_none]
      intro vm hvm
      simpa using habs vm hvm
    simp [ProxmoxService.find_vm_node, h, hfind]
  refine ⟨h1, h2, ?_, ?_, ?_⟩
  · intro c1 c2 vmid e vms he hok habs
    rw [h1 c1 vmid e he, h2 c2 vmid vms hok habs]
  · intro ops vmid h
    simp [VMService.get_vm_info, VMService.getVmInfoBody, h]
  · intro env t vmid h
    simp [ValidationService.check_proxmox_status, h]

/-- C10 witness: a client whose listing raises and a client whose listing
does not contain VM 101 both make find_vm_node return None, with equal
results; get_vm_info and the liveness check then report 'VM 101 not
found' against the dead control plane. -/
theorem C10_find_vm_node_total_witness :
    ProxmoxService.find_vm_node clientDown 101 = none ∧
    ProxmoxService.find_vm_node clientWithout101 101 = none ∧
    ProxmoxService.find_vm_node clientDown 101 =
      ProxmoxService.find_vm_node clientWithout101 101 ∧
    (VMService.get_vm_info opsDown 101).1 =
      Except.error (PErr.notFound "VM 101 not found") ∧
    ValidationService.check_proxmox_status ValidationService.envNoNode 0 101 =
      { passed := false, message := some "VM 101 not found",
        details := none, required := true } := by
  have h := C10_find_vm_node_total
  have he : ProxmoxService.list_vms_all clientDown =
      Except.error (PErr.connection
        "Failed to list VMs: Failed to list nodes: connection refused") := rfl
  have hok : ProxmoxService.list_vms_all clientWithout101 =
      Except.ok [{ vmid := 9000, node := some "pve", template := 1 }] := rfl
  have habs : ∀ vm ∈ [({ vmid := 9000, node := some "pve", template := 1 } :
      ProxmoxService.VMEntry)], vm.vmid ≠ (101 : Int) := by decide
  refine ⟨h.1 clientDown 101 _ he, h.2.1 clientWithout101 101 _ hok habs,
    h.2.2.1 clientDown clientWithout101 101 _ _ he hok habs,
    ?_, h.2.2.2.2 ValidationService.envNoNode 0 101 rfl⟩
  exact h.2.2.2.1 opsDown 101 rfl

/-- String concatenation is associative (stated here since the claims
about messages need to re-bracket concatenations). -/
theorem str_append_assoc (a b c : String) : a ++ b ++ c = a ++ (b ++ c) := by
  cases a with
  | mk la =>
    cases b with
    | mk lb =>
      cases c with
      | mk lc =>
        show String.mk (la ++ lb ++ lc) = String.mk (la ++ (lb ++ lc))
        rw [List.append_assoc]

/-- C3 (amended): an explicit target id outside the configured range
(nonzero, so Python truthiness keeps it) raises InvalidVMIDError.  On the
create path this happens before any control-plane call.  On the clone
path the source template is resolved first — find_vm_node and
get_vm_config are control-plane calls issued before the range check — and
only then is InvalidVMIDError raised, before the clone is submitted. -/
theorem C3_out_of_range_id (ops : Ops) (s : Settings) :
    (∀ (request : VMCreateRequest) (v : Int),
      request.vmid = some v → v ≠ 0 →
      (v < s.vmid_min ∨ v > s.vmid_max) →
      (VMService.create_vm ops s request).1 =
        Except.error (PErr.invalidVMID (VMService.rangeMsg v s)) ∧
      (VMService.create_vm ops s request).2.filter cpCall = []) ∧
    (∀ (request : CloneRequest) (v : Int) (source_node : String)
        (config : VMConfig),
      request.new_vmid = some v → v ≠ 0 →
      (v < s.vmid_min ∨ v > s.vmid_max) →
      ops.findVmNode request.source_vmid = some source_node →
      ops.getVmConfig source_node request.source_vmid = Except.ok config →
      config.template.getD 0 ≠ 0 →
      (TemplateService.clone_from_template ops s request).1 =
        Except.error (PErr.invalidVMID (VMService.rangeMsg v s)) ∧
      (TemplateService.clone_from_template ops s request).2.filter cpCall =
        [Ev.findVmNode request.source_vmid,
         Ev.getVmConfig source_node request.source_vmid]) := by
  constructor
  · intro request v hv hv0 hrange
    unfold VMService.create_vm VMService.createVmBody VMService.resolveVmid
    simp [pyTruthyInt, hv, hv0, hrange, cpCall]
  · intro request v source_node config hv hv0 hrange hfind hcfg htpl
    unfold TemplateService.clone_from_template TemplateService.cloneBody
      VMService.resolveVmid
    simp [pyTruthyInt, hv, hv0, hrange, hfind, hcfg, htpl, cpCall]

/-- C3 counterexample to the claim as stated: a clone request with the
explicit target id 149 = vmid_min - 1 against a control plane on which
the source template does not resolve raises TemplateNotFoundError — not
InvalidVMIDError — because template resolution precedes the range
check. -/
theorem C3_out_of_range_id_cex :
    (TemplateService.clone_from_template opsDown defSettings reqCloneLowId).1 =
      Except.error (PErr.templateNotFound "Template 9000 not found") ∧
    reqCloneLowId.new_vmid = some 149 ∧
    defSettings.vmid_min = 150 ∧
    (149 : Int) = 150 - 1 := by
  exact ⟨rfl, rfl, rfl, by decide⟩

/-- C3 witness: the create path raises InvalidVMIDError for the explicit
id 149 with no control-plane call at all; the clone path (resolvable
template) raises it after exactly the two template-resolution reads. -/
theorem C3_out_of_range_id_witness :
    (VMService.create_vm opsDown defSettings reqCreateLowId).1 =
      Except.error (PErr.invalidVMID
        "VM ID 149 is outside allowed range (150-999)") ∧
    (VMService.create_vm opsDown defSettings reqCreateLowId).2.filter cpCall
      = [] ∧
    (TemplateService.clone_from_template opsStartFails defSettings
        reqCloneLowId).1 =
      Except.error (PErr.invalidVMID
        "VM ID 149 is outside allowed range (150-999)") ∧
    (TemplateService.clone_from_template opsStartFails defSettings
        reqCloneLowId).2.filter cpCall =
      [Ev.findVmNode 9000, Ev.getVmConfig "pve" 9000] := by
  have hc := (C3_out_of_range_id opsDown defSettings).1 reqCreateLowId 149 rfl
    (by decide) (by decide)
  have hcl := (C3_out_of_range_id opsStartFails defSettings).2 reqCloneLowId 149
    "pve" { name := some "ubuntu-tpl", cores := some 2, cpus := none,
            memory := some 2048, template := some 1 }
    rfl (by decide) (by decide) rfl rfl (by decide)
  have hmsg : VMService.rangeMsg 149 defSettings =
      "VM ID 149 is outside allowed range (150-999)" := rfl
  rw [hmsg] at hc hcl
  exact ⟨hc.1, hc.2, hcl.1, hcl.2⟩

/-- C5: on both provisioning paths, when the VM has been provisioned
(the creation/clone task succeeded), start-after-provisioning is
requested and enabled, and the start call throws, the run still returns
success: the result has status created — not started — and its message
contains the words failed to start. -/
theorem C5_start_failure_degrades (ops : Ops) (s : Settings) :
    (∀ (request : VMCreateRequest) (v : Int) (task : String) (e : PErr),
      request.vmid = some v → v ≠ 0 →
      s.vmid_min ≤ v → v ≤ s.vmid_max →
      request.start_on_creation = true → s.enable_auto_start = true →
      ops.createVm (pyOr request.node s.default_node) v
          (VMService.vmConfig request (pyOr request.storage s.default_storage)
            (pyOr request.network_bridge s.default_network_bridge)) =
        Except.ok task →
      ops.waitForTask (pyOr request.node s.default_node) task 120 = true →
      ops.startVm (pyOr request.node s.default_node) v = Except.error e →
      (VMService.create_vm ops s request).1 =
        Except.ok { vmid := v, name := request.name,
                    node := pyOr request.node s.default_node,
                    status := "created",
                    message := "VM " ++ toString v ++
                      " created but failed to start: " ++ pyStr e,
                    task_id := some task } ∧
      ∃ a b, "VM " ++ toString v ++ " created but failed to start: " ++ pyStr e =
        a ++ ("failed to start" ++ b)) ∧
    (∀ (request : CloneRequest) (v : Int) (source_node : String)
        (config : VMConfig) (task : String) (e : PErr),
      request.new_vmid = some v → v ≠ 0 →
      s.vmid_min ≤ v → v ≤ s.vmid_max →
      ops.findVmNode request.source_vmid = some source_node →
      ops.getVmConfig source_node request.source_vmid = Except.ok config →
      config.template.getD 0 ≠ 0 →
      ops.cloneVm source_node request.source_vmid v request.name
          (pyOr request.storage s.default_storage)
          (if request.full_clone then 1 else 0) request.description =
        Except.ok task →
      ops.waitForTask source_node task s.validation_timeout = true →
      request.cores = none → request.memory = none → request.tags = none →
      request.cloudinit = none →
      request.start_after_clone = true → s.enable_auto_start = true →
      ops.startVm (pyOr request.node s.default_node) v = Except.error e →
      (TemplateService.clone_from_template ops s request).1 =
        Except.ok { vmid := v, name := request.name,
                    node := pyOr request.node s.default_node,
                    status := "created",
                    message := "VM " ++ toString v ++
                      " cloned successfully but failed to start: " ++ pyStr e,
                    task_id := some task } ∧
      ∃ a b, "VM " ++ toString v ++
          " cloned successfully but failed to start: " ++ pyStr e =
        a ++ ("failed to start" ++ b)) := by
  constructor
  · intro request v task e hv hv0 hmin hmax hstart hauto hcreate hwait hsf
    have hr : ¬ (v < s.vmid_min ∨ v > s.vmid_max) := by omega
    constructor
    · unfold VMService.create_vm VMService.createVmBody VMService.resolveVmid
        VMService.startStep
      simp [pyTruthyInt, hv, hv0, hr, hcreate, hwait, hstart, hauto, hsf]
    · refine ⟨"VM " ++ toString v ++ " created but ", ": " ++ pyStr e, ?_⟩
      rw [← str_append_assoc "failed to start" ": " (pyStr e),
        ← str_append_assoc ("VM " ++ toString v ++ " created but ")
          ("failed to start" ++ ": ") (pyStr e),
        str_append_assoc ("VM " ++ toString v) " created but "
          ("failed to start" ++ ": "),
        show (" created but " ++ ("failed to start" ++ ": ") : String) =
          " created but failed to start: " from by decide]
  · intro request v source_node config task e hv hv0 hmin hmax hfind hcfg htpl
      hclone hwait hcores hmem htags hci hstart hauto hsf
    have hr : ¬ (v < s.vmid_min ∨ v > s.vmid_max) := by omega
    constructor
    · unfold TemplateService.clone_from_template TemplateService.cloneBody
        VMService.resolveVmid TemplateService.cloneStartStep
        TemplateService.apply_cloudinit
      simp [pyTruthyInt, pyTruthyList, hv, hv0, hr, hfind, hcfg, htpl, hclone,
        hwait, hcores, hmem, htags, hci, hstart, hauto, hsf]
    · refine ⟨"VM " ++ toString v ++ " cloned successfully but ",
        ": " ++ pyStr e, ?_⟩
      rw [← str_append_assoc "failed to start" ": " (pyStr e),
        ← str_append_assoc ("VM " ++ toString v ++ " cloned successfully but ")
          ("failed to start" ++ ": ") (pyStr e),
        str_append_assoc ("VM " ++ toString v) " cloned successfully but "
          ("failed to start" ++ ": "),
        show (" cloned successfully but " ++ ("failed to start" ++ ": ") :
            String) = " cloned successfully but failed to start: " from by decide]

/-- C5 witness: against the control plane whose start call throws, both a
create run and a clone run finish with status created and the
failed-to-start message. -/
theorem C5_start_failure_degrades_witness :
    (VMService.create_vm opsStartFails defSettings reqOk).1 =
      Except.ok { vmid := 200, name := "srv-01", node := "pve",
                  status := "created",
                  message := "VM 200 created but failed to start: Failed to start VM: timeout",
                  task_id := some "UPID:pve:create" } ∧
    (TemplateService.clone_from_template opsStartFails defSettings
        reqCloneStart).1 =
      Except.ok { vmid := 200, name := "srv-01", node := "pve",
                  status := "created",
                  message := "VM 200 cloned successfully but failed to start: Failed to start VM: timeout",
                  task_id := some "UPID:pve:clone" } := by
  have hc := (C5_start_failure_degrades opsStartFails defSettings).1 reqOk 200
    "UPID:pve:create" (PErr.connection "Failed to start VM: timeout")
    rfl (by decide) (by decide) (by decide) rfl rfl rfl rfl rfl
  have hcl := (C5_start_failure_degrades opsStartFails defSettings).2
    reqCloneStart 200 "pve"
    { name := some "ubuntu-tpl", cores := some 2, cpus := none,
      memory := some 2048, template := some 1 }
    "UPID:pve:clone" (PErr.connection "Failed to start VM: timeout")
    rfl (by decide) (by decide) (by decide) rfl rfl (by decide) rfl rfl
    rfl rfl rfl rfl rfl rfl rfl
  constructor
  · rw [hc.1]; rfl
  · rw [hcl.1]; rfl

/-- C7: once the clone task has succeeded, a failure while applying the
requested cores/memory/tags customizations is raised to the caller as
VMCloneError whose message starts with the distinguishing phrase
'VM cloned but customization failed', and the run issues no delete (or
any other rollback) call for the already-created VM. -/
theorem C7_customization_failure_no_rollback (ops : Ops) (s : Settings)
    (request : CloneRequest) (v c : Int) (source_node : String)
    (config : VMConfig) (task : String) (e : PErr)
    (hv : request.new_vmid = some v) (hv0 : v ≠ 0)
    (hmin : s.vmid_min ≤ v) (hmax : v ≤ s.vmid_max)
    (hfind : ops.findVmNode request.source_vmid = some source_node)
    (hcfg : ops.getVmConfig source_node request.source_vmid = Except.ok config)
    (htpl : config.template.getD 0 ≠ 0)
    (hclone : ops.cloneVm source_node request.source_vmid v request.name
        (pyOr request.storage s.default_storage)
        (if request.full_clone then 1 else 0) request.description =
      Except.ok task)
    (hwait : ops.waitForTask source_node task s.validation_timeout = true)
    (hcores : request.cores = some c) (hc0 : c ≠ 0)
    (hupd : ∀ params, ops.updateVmConfig (pyOr request.node s.default_node) v
        params = Except.error e) :
    (TemplateService.clone_from_template ops s request).1 =
      Except.error (PErr.clone
        ("VM cloned but customization failed: " ++ pyStr e)) ∧
    (TemplateService.clone_from_template ops s request).2 =
      [Ev.findVmNode request.source_vmid,
       Ev.getVmConfig source_node request.source_vmid,
       Ev.cloneVm source_node request.source_vmid v,
       Ev.waitForTask source_node task s.validation_timeout,
       Ev.updateVmConfig (pyOr request.node s.default_node) v,
       Ev.auditClone] ∧
    (∀ n i, Ev.deleteVm n i ∉ (TemplateService.clone_from_template ops s request).2) ∧
    (∃ b, "VM cloned but customization failed: " ++ pyStr e =
      "VM cloned but customization failed" ++ b) := by
  have hr : ¬ (v < s.vmid_min ∨ v > s.vmid_max) := by omega
  have hmain : TemplateService.clone_from_template ops s request =
      (Except.error (PErr.clone
        ("VM cloned but customization failed: " ++ pyStr e)),
       [Ev.findVmNode request.source_vmid,
        Ev.getVmConfig source_node request.source_vmid,
        Ev.cloneVm source_node request.source_vmid v,
        Ev.waitForTask source_node task s.validation_timeout,
        Ev.updateVmConfig (pyOr request.node s.default_node) v,
        Ev.auditClone]) := by
    unfold TemplateService.clone_from_template TemplateService.cloneBody
      VMService.resolveVmid TemplateService.apply_customizations
    simp [pyTruthyInt, hv, hv0, hr, hfind, hcfg, htpl, hclone, hwait, hcores,
      hc0, hupd]
  refine ⟨congrArg Prod.fst hmain, congrArg Prod.snd hmain, ?_, ?_⟩
  · intro n i
    rw [congrArg Prod.snd hmain]
    simp
  · refine ⟨": " ++ pyStr e, ?_⟩
    rw [← str_append_assoc "VM cloned but customization failed" ": " (pyStr e),
      show ("VM cloned but customization failed" ++ ": " : String) =
        "VM cloned but customization failed: " from by decide]

/-- C7 witness: against the control plane whose config-update call
throws, the clone with a cores override surfaces the customization
failure and issues no delete call. -/
theorem C7_customization_failure_no_rollback_witness :
    (TemplateService.clone_from_template opsCustomizeFails defSettings
        reqCloneCustom).1 =
      Except.error (PErr.clone
        "VM cloned but customization failed: Failed to update VM config: timeout") ∧
    (∀ n i, Ev.deleteVm n i ∉
      (TemplateService.clone_from_template opsCustomizeFails defSettings
        reqCloneCustom).2) := by
  have h := C7_customization_failure_no_rollback opsCustomizeFails defSettings
    reqCloneCustom 200 4 "pve"
    { name := some "ubuntu-tpl", cores := some 2, cpus := none,
      memory := some 2048, template := some 1 }
    "UPID:pve:clone" (PErr.connection "Failed to update VM config: timeout")
    rfl (by decide) (by decide) (by decide) rfl rfl (by decide) rfl rfl rfl
    (by decide) (fun _ => rfl)
  exact ⟨h.1, h.2.2.1⟩

/-- C9: the result of validate_vm does not depend on its timeout
argument: the overall timeout is computed on entry but never read, and
the address-wait always uses the fixed 120-second sub-timeout. -/
theorem C9_validate_vm_timeout_independent (env : ValidationService.VEnv)
    (s : Settings) (vmid : Int) (os_type : String) (t1 t2 : Option Nat) :
    ValidationService.validate_vm env s vmid os_type t1 =
      ValidationService.validate_vm env s vmid os_type t2 := rfl

end App
